import Mathlib

/-!
Shallow embedding of the audio-analysis and visual-mapping pipeline of the
audioviz repository, together with theorems settling the specification
claims about it.

Numeric JavaScript values are modelled as rationals (`ℚ`) where the code
only performs field arithmetic, comparisons, `Math.floor`, `Math.min`,
`Math.max` and `Math.abs`, and as reals (`ℝ`) where the code uses
`Math.log10` / `Math.pow` (transcendental functions).  Fallible reads are
modelled with `Option`; a JavaScript `null`/`undefined` result is `none`.
-/

namespace AudioViz

/-! ## Feature extraction: `AudioService.detectBeat`

Embeds `AudioService.detectBeat` (src/src/services/AudioService.ts,
lines 588-598).  The method reads `getFrequencyData()` (which may be
`null`), takes `slice(0, 10)`, averages absolute values and compares with
`>` against the threshold.  A `null` buffer returns `false`.  For an empty
buffer the JavaScript average is `0 / 0 = NaN` and `NaN > t` is `false`
for every `t`; the embedding returns `false` on that branch directly. -/

/-- Default beat threshold: the TS parameter default `threshold = 0.15`. -/
def defaultBeatThreshold : ℚ := 15 / 100

/-- `AudioService.detectBeat`: mean absolute magnitude of the first 10
entries of the frequency buffer, compared strictly against `threshold`. -/
def detectBeat (frequencyData : Option (List ℚ)) (threshold : ℚ) : Bool :=
  match frequencyData with
  | none => false
  | some l =>
    if (l.take 10).length = 0 then false
    else decide (((l.take 10).map (fun v => |v|)).sum / ((l.take 10).length : ℚ) > threshold)

/-- `detectBeat` invoked without an explicit threshold (the TS call sites
`detectBeat(0.15)` and the parameter default both use 0.15). -/
def detectBeatDefault (frequencyData : Option (List ℚ)) : Bool :=
  detectBeat frequencyData defaultBeatThreshold

/-! ## Magnitude normalization (BarVisualizer / ParticleVisualizer)

BarVisualizer (src/unnamed/part_001, line 67):
  `const normalizedValue = (frequencyData[dataIndex] + 100) / 100;`
ParticleVisualizer (src/unnamed/part_000, line 134):
  `const audioValue = ((frequencyData[frequencyIndex] || -80) + 100) / 100;`
Neither site applies any clamping after the division. -/

/-- Bar-mode normalization of a raw decibel magnitude. -/
def normalizedValue (db : ℚ) : ℚ := (db + 100) / 100

/-- JavaScript `v || fallback` for a numeric `v`: a zero (falsy) value is
replaced by the fallback, every other value is kept. -/
def jsOr (v fallback : ℚ) : ℚ := if v = 0 then fallback else v

/-- Particle-mode normalization: the raw reading is first coalesced with
`|| -80`, then mapped by `(db + 100) / 100`, with no clamping. -/
def audioValue (db : ℚ) : ℚ := (jsOr db (-80) + 100) / 100

/-! ## WaveformVisualizer y-coordinates

Embeds the two drawing passes of
src/src/components/visualizers/2d/WaveformVisualizer.tsx.  The primary
trace (lines 56-71) computes
  `margin = 6`, `maxAmplitude = height/2 - margin`,
  `amplitude = maxAmplitude * sensitivityScale` with
  `sensitivityScale = sensitivity / 100`, and
  `y = height/2 + max(-maxAmplitude, min(sample * amplitude, maxAmplitude))`.
The mirror pass (line 86) computes
  `y = height/2 - sample * height/2 * sensitivity`
using the raw 0-100 `sensitivity` with no clamp and no margin. -/

/-- The fixed pixel margin of the waveform trace (`const margin = 6`). -/
def waveformMargin : ℚ := 6

/-- `sensitivityScale = (sensitivity ?? 50) / 100` for a present setting. -/
def sensitivityScale (sensitivity : ℚ) : ℚ := sensitivity / 100

/-- `maxAmplitude = height / 2 - margin`. -/
def maxAmplitude (height : ℚ) : ℚ := height / 2 - waveformMargin

/-- `amplitude = maxAmplitude * sensitivityScale`. -/
def amplitude (height sensitivity : ℚ) : ℚ :=
  maxAmplitude height * sensitivityScale sensitivity

/-- y-coordinate of the primary waveform trace at one sample. -/
def primaryY (height sensitivity sample : ℚ) : ℚ :=
  height / 2 +
    max (-(maxAmplitude height)) (min (sample * amplitude height sensitivity) (maxAmplitude height))

/-- y-coordinate of the mirror-effect pass at one sample: raw `sensitivity`
(0-100 scale) multiplies the half-height directly, with no clamping. -/
def mirrorY (height sensitivity sample : ℚ) : ℚ :=
  height / 2 - sample * (height / 2) * sensitivity

/-! ## Color-index selection (three modes)

BarVisualizer (src/unnamed/part_001, lines 70-71):
  `colorIndex = Math.floor((i / numBands) * colors.length)`,
  accessed as `colors[colorIndex % colors.length]`.
GeometricVisualizer (lines 141-142) and ParticleVisualizer (lines 156-157):
  `colorIndex = Math.floor(value * colors.length)`,
  accessed as `colors[Math.min(colorIndex, colors.length - 1)]`. -/

/-- Bar-mode color index as actually used for the array access:
`floor((i / numBands) * colors.length) % colors.length`. -/
def barColorIndex (i numBands colorsLen : ℕ) : ℤ :=
  ⌊((i : ℚ) / (numBands : ℚ)) * (colorsLen : ℚ)⌋ % (colorsLen : ℤ)

/-- Geometric-mode color index as actually used for the array access:
`min(floor(average * colors.length), colors.length - 1)`. -/
def geometricColorIndex (average : ℚ) (colorsLen : ℕ) : ℤ :=
  min ⌊average * (colorsLen : ℚ)⌋ ((colorsLen : ℤ) - 1)

/-- Particle-mode color index: same expression as the geometric mode,
driven by the unclamped `audioValue`. -/
def particleColorIndex (value : ℚ) (colorsLen : ℕ) : ℤ :=
  min ⌊value * (colorsLen : ℚ)⌋ ((colorsLen : ℤ) - 1)

/-! ## Playback position: `AudioService.getDuration` / `seekTo`

`getDuration` (lines 473-485) returns `null` when there is no player or
the player has no buffer, otherwise the buffer's duration.  `seekTo`
(lines 487-504) is a no-op when there is no player; otherwise it clamps
the target with `Math.max(0, Math.min(seconds, this.getDuration() || 0))`
and seeks there (a throwing seek is caught, so the method never throws).
The embedding returns the position actually handed to `player.seek`,
`none` for the no-player no-op. -/

/-- A decoded audio buffer: only its duration is relevant here. -/
structure ToneBuffer where
  duration : ℚ

/-- A `Tone.Player`: it may or may not have a loaded buffer. -/
structure TonePlayer where
  buffer : Option ToneBuffer

/-- `AudioService.getDuration`. -/
def getDuration (player : Option TonePlayer) : Option ℚ :=
  match player with
  | none => none
  | some p =>
    match p.buffer with
    | none => none
    | some b => some b.duration

/-- `AudioService.seekTo`: the clamped position passed to the player, or
`none` when there is no player (the early-return no-op). -/
def seekTo (player : Option TonePlayer) (seconds : ℚ) : Option ℚ :=
  match player with
  | none => none
  | some p => some (max 0 (min seconds ((getDuration (some p)).getD 0)))

/-! ## Analyzer reads: `getFrequencyData` / `getWaveformData`

`AudioService.getFrequencyData` (lines 506-543) returns `null` exactly
when `this.analyser` is `null` or the body throws (the `catch` returns
`null`); otherwise it returns `this.analyser.getValue()`.  It never
consults `this.currentSource`.  `getWaveformData` (lines 545-586) has the
same shape, reading in waveform mode.  The external `Tone.Analyser
.getValue()` call is modelled as an oracle stored in the analyser state:
`ok data` for a successful read, `err` for a throwing one. -/

/-- Result of an external `analyser.getValue()` read. -/
inductive ReadResult where
  | ok (data : List ℚ)
  | err
deriving DecidableEq

/-- The analyser as seen by the service: the outcomes its reads would
produce in FFT mode and in waveform mode. -/
structure Analyser where
  readFft : ReadResult
  readWaveform : ReadResult

/-- The three source kinds of `AudioSourceType`. -/
inductive AudioSourceType where
  | file
  | microphone
  | stream
deriving DecidableEq

/-- The fields of `AudioService` relevant to the pull accessors. -/
structure AudioServiceState where
  analyser : Option Analyser
  currentSource : Option AudioSourceType

/-- `AudioService.getFrequencyData`. -/
def getFrequencyData (s : AudioServiceState) : Option (List ℚ) :=
  match s.analyser with
  | none => none
  | some a =>
    match a.readFft with
    | ReadResult.ok data => some data
    | ReadResult.err => none

/-- `AudioService.getWaveformData`. -/
def getWaveformData (s : AudioServiceState) : Option (List ℚ) :=
  match s.analyser with
  | none => none
  | some a =>
    match a.readWaveform with
    | ReadResult.ok data => some data
    | ReadResult.err => none

/-- The service right after construction: the constructor calls
`createAnalyzer(-100, -30)`, so an analyser exists, while no source has
been started.  A Web Audio analyser that is connected to nothing still
answers reads with a silence buffer (all bins at the decibel floor), which
is the oracle recorded here. -/
def freshService : AudioServiceState :=
  { analyser := some { readFft := ReadResult.ok (List.replicate 1024 (-100))
                       readWaveform := ReadResult.ok (List.replicate 1024 0) }
    currentSource := none }

/-! ## Visualization settings store (VisualizationContext)

Embeds `VisualizationSettings`, the default settings object and the
provider operations of src/src/contexts/AudioContext.tsx (lines 156-347).
`updateSettings` is `setSettings(prev => ({ ...prev, ...updates }))`: a
field present in the partial update takes the update's value, every other
field keeps the previous value.  A partial update is modelled as a record
of `Option`s; `none` means the key is absent from the update object. -/

/-- The seven visualization modes of `VisualizationType`. -/
inductive VisualizationType where
  | bars2d
  | waveform2d
  | circular
  | particles3d
  | geometric3d
  | asteroids2d
  | asteroids3d
deriving DecidableEq

/-- `CanvasOrientation`. -/
inductive CanvasOrientation where
  | horizontal
  | vertical
deriving DecidableEq

/-- `ColorScheme`: id, display name, ordered color list. -/
structure ColorScheme where
  id : String
  name : String
  colors : List String
deriving DecidableEq

/-- The `resolution` field's `{ width, height }` pair. -/
structure Resolution where
  width : ℚ
  height : ℚ
deriving DecidableEq

/-- `VisualizationSettings` with every field of the TS interface. -/
structure VisualizationSettings where
  wavelengthSize : ℚ
  numFrequencyBands : ℚ
  type : VisualizationType
  visualizationType : VisualizationType
  resolution : Resolution
  width : ℚ
  height : ℚ
  orientation : CanvasOrientation
  frameRate : ℚ
  colorScheme : ColorScheme
  sensitivity : ℚ
  showControls : Bool
  isSimpleMode : Bool
  barWidth : ℚ
  barSpacing : ℚ
  amplification : ℚ
  primaryColor : String
  secondaryColor : String
  useGradient : Bool
  lineWidth : ℚ
  useGlow : Bool
  glowIntensity : ℚ
  useRotation : Bool
  rotationSpeed : ℚ

/-- A `Partial<VisualizationSettings>` update object: `none` marks a key
that is absent from the update. -/
structure SettingsPatch where
  wavelengthSize : Option ℚ := none
  numFrequencyBands : Option ℚ := none
  type : Option VisualizationType := none
  visualizationType : Option VisualizationType := none
  resolution : Option Resolution := none
  width : Option ℚ := none
  height : Option ℚ := none
  orientation : Option CanvasOrientation := none
  frameRate : Option ℚ := none
  colorScheme : Option ColorScheme := none
  sensitivity : Option ℚ := none
  showControls : Option Bool := none
  isSimpleMode : Option Bool := none
  barWidth : Option ℚ := none
  barSpacing : Option ℚ := none
  amplification : Option ℚ := none
  primaryColor : Option String := none
  secondaryColor : Option String := none
  useGradient : Option Bool := none
  lineWidth : Option ℚ := none
  useGlow : Option Bool := none
  glowIntensity : Option ℚ := none
  useRotation : Option Bool := none
  rotationSpeed : Option ℚ := none

/-- The object spread `{ ...prev, ...updates }` over the settings fields. -/
def mergeSettings (prev : VisualizationSettings) (updates : SettingsPatch) :
    VisualizationSettings where
  wavelengthSize := updates.wavelengthSize.getD prev.wavelengthSize
  numFrequencyBands := updates.numFrequencyBands.getD prev.numFrequencyBands
  type := updates.type.getD prev.type
  visualizationType := updates.visualizationType.getD prev.visualizationType
  resolution := updates.resolution.getD prev.resolution
  width := updates.width.getD prev.width
  height := updates.height.getD prev.height
  orientation := updates.orientation.getD prev.orientation
  frameRate := updates.frameRate.getD prev.frameRate
  colorScheme := updates.colorScheme.getD prev.colorScheme
  sensitivity := updates.sensitivity.getD prev.sensitivity
  showControls := updates.showControls.getD prev.showControls
  isSimpleMode := updates.isSimpleMode.getD prev.isSimpleMode
  barWidth := updates.barWidth.getD prev.barWidth
  barSpacing := updates.barSpacing.getD prev.barSpacing
  amplification := updates.amplification.getD prev.amplification
  primaryColor := updates.primaryColor.getD prev.primaryColor
  secondaryColor := updates.secondaryColor.getD prev.secondaryColor
  useGradient := updates.useGradient.getD prev.useGradient
  lineWidth := updates.lineWidth.getD prev.lineWidth
  useGlow := updates.useGlow.getD prev.useGlow
  glowIntensity := updates.glowIntensity.getD prev.glowIntensity
  useRotation := updates.useRotation.getD prev.useRotation
  rotationSpeed := updates.rotationSpeed.getD prev.rotationSpeed

/-- `defaultColorSchemes[0]` from the source. -/
def defaultScheme : ColorScheme :=
  { id := "default"
    name := "Default"
    colors := ["#ff0000", "#00ff00", "#0000ff", "#ffff00", "#00ffff", "#ff00ff"] }

/-- The `defaultSettings` object from the source. -/
def defaultSettings : VisualizationSettings where
  type := VisualizationType.bars2d
  visualizationType := VisualizationType.bars2d
  resolution := { width := 1280, height := 720 }
  width := 1280
  height := 720
  orientation := CanvasOrientation.horizontal
  frameRate := 60
  colorScheme := defaultScheme
  sensitivity := 1
  showControls := true
  isSimpleMode := true
  barWidth := 5
  barSpacing := 2
  amplification := 3 / 2
  primaryColor := "#ff0000"
  secondaryColor := "#00ff00"
  useGradient := true
  lineWidth := 2
  useGlow := false
  glowIntensity := 5
  useRotation := false
  rotationSpeed := 1 / 2
  wavelengthSize := 1024
  numFrequencyBands := 8

/-- A stored preset: generated id, name, full settings snapshot. -/
structure Preset where
  id : String
  name : String
  settings : VisualizationSettings

/-- The `VisualizationProvider` state triple. -/
structure ProviderState where
  settings : VisualizationSettings
  presets : List Preset
  colorSchemes : List ColorScheme

/-- The provider's `updateSettings` operation. -/
def updateSettings (st : ProviderState) (updates : SettingsPatch) : ProviderState :=
  { st with settings := mergeSettings st.settings updates }

/-- The provider's `savePreset` operation; `now` stands for the
`Date.now()` string used to build the generated id. -/
def savePreset (st : ProviderState) (name now : String) : ProviderState :=
  { st with
    presets := st.presets ++ [{ id := "preset-" ++ now, name := name, settings := st.settings }] }

/-- The provider's `loadPreset` operation: an unknown id leaves the state
unchanged, a known id replaces the settings with the stored snapshot. -/
def loadPreset (st : ProviderState) (presetId : String) : ProviderState :=
  match st.presets.find? (fun p => p.id == presetId) with
  | none => st
  | some p => { st with settings := p.settings }

/-- The provider's `addColorScheme` operation. -/
def addColorScheme (st : ProviderState) (name : String) (colors : List String)
    (now : String) : ProviderState :=
  { st with
    colorSchemes := st.colorSchemes ++ [{ id := "scheme-" ++ now, name := name, colors := colors }] }

/-! ## Volume mapping: `AudioService.setVolume`

Embeds lines 327-352: `clampedVolume = Math.max(0, Math.min(1, volume))`;
`decibelValue = -70` when the clamped volume is zero, otherwise
`20 * Math.log10(clampedVolume)`; the result is written to the volume
node.  Modelled over `ℝ` because of the logarithm. -/

/-- `Math.max(0, Math.min(1, volume))`. -/
def clampVolume (volume : ℝ) : ℝ := max 0 (min 1 volume)

/-- The decibel gain `setVolume` writes to the volume node. -/
noncomputable def setVolumeDb (volume : ℝ) : ℝ :=
  if 0 < clampVolume volume then 20 * Real.logb 10 (clampVolume volume) else -70

/-! ## Logarithmic frequency banding (BarVisualizer)

Embeds the `freqBins` loop of src/unnamed/part_001, lines 48-62:
`logMin = log10 20`, `logMax = log10 20000`,
`logFreq = logMin + (i / numBands) * (logMax - logMin)`,
`freq = 10 ^ logFreq`,
`binIndex = Math.floor((freq / 22050) * (fftSize / 2))`,
pushed as `Math.min(binIndex, fftSize - 1)`.  Modelled over `ℝ`. -/

/-- `Math.log10(20)`. -/
noncomputable def logMin : ℝ := Real.logb 10 20

/-- `Math.log10(20000)`. -/
noncomputable def logMax : ℝ := Real.logb 10 20000

/-- The center frequency of band `i` out of `numBands`. -/
noncomputable def centerFreq (numBands i : ℕ) : ℝ :=
  (10 : ℝ) ^ (logMin + ((i : ℝ) / (numBands : ℝ)) * (logMax - logMin))

/-- The clamped FFT bin index pushed onto `freqBins` for band `i`. -/
noncomputable def binIndex (numBands fftSize i : ℕ) : ℤ :=
  min ⌊(centerFreq numBands i / 22050) * ((fftSize : ℝ) / 2)⌋ ((fftSize : ℤ) - 1)

/-- The full `freqBins` array for a band count and FFT buffer length. -/
noncomputable def freqBins (numBands fftSize : ℕ) : List ℤ :=
  (List.range numBands).map (binIndex numBands fftSize)

/-! ## Theorems -/

/-- C2 counterexample: the normalization `(db + 100) / 100` is not
clamped.  A raw value of 50 dB maps to 3/2, outside [0,1], and the
particle site maps a raw reading of 0 dB to 1/5, not to 1. -/
theorem normalizedValue_not_clamped_cex :
    normalizedValue 50 = 3 / 2 ∧ 1 < normalizedValue 50 ∧ audioValue 0 = 1 / 5 := by
  refine ⟨?_, ?_, ?_⟩ <;> norm_num [normalizedValue, audioValue, jsOr]

/-- C2 amended: the normalization is `(db + 100) / 100` with no clamping.
It maps -100 to 0 and 0 to 1 at the bar site, its output lies in [0,1]
exactly when the input lies in [-100,0], and the particle site agrees with
the bar site except that a zero (falsy) reading is first coalesced
to -80. -/
theorem normalizedValue_spec :
    normalizedValue (-100) = 0 ∧ normalizedValue 0 = 1 ∧
    (∀ db : ℚ, 0 ≤ normalizedValue db ∧ normalizedValue db ≤ 1 ↔ -100 ≤ db ∧ db ≤ 0) ∧
    (∀ db : ℚ, db ≠ 0 → audioValue db = normalizedValue db) := by
  refine ⟨by norm_num [normalizedValue], by norm_num [normalizedValue],
    fun db => ?_, fun db hdb => ?_⟩
  · unfold normalizedValue
    constructor
    · rintro ⟨h1, h2⟩
      constructor <;> linarith
    · rintro ⟨h1, h2⟩
      constructor <;> linarith
  · unfold audioValue jsOr normalizedValue
    rw [if_neg hdb]

/-- C2 amended witness: at db = -50 the particle site agrees with the bar
site. -/
theorem normalizedValue_spec_witness :
    audioValue (-50) = normalizedValue (-50) :=
  normalizedValue_spec.2.2.2 (-50) (by norm_num)

/-- C3: `detectBeat` returns false on a null buffer and on an empty
buffer, and for a buffer with at least 10 entries it returns true exactly
when the mean absolute value of the first 10 entries strictly exceeds the
threshold; the default threshold is 0.15. -/
theorem detectBeat_spec :
    (∀ t : ℚ, detectBeat none t = false) ∧
    (∀ t : ℚ, detectBeat (some []) t = false) ∧
    (∀ (l : List ℚ) (t : ℚ), 10 ≤ l.length →
      (detectBeat (some l) t = true ↔
        ((l.take 10).map (fun v => |v|)).sum / 10 > t)) ∧
    (∀ d : Option (List ℚ), detectBeatDefault d = detectBeat d (15 / 100)) := by
  refine ⟨fun t => rfl, fun t => rfl, fun l t hl => ?_, fun d => rfl⟩
  have hlen : (l.take 10).length = 10 := by
    rw [List.length_take]
    exact Nat.min_eq_left hl
  simp [detectBeat, hlen]

/-- C3 witness: a 10-entry buffer of ones against threshold 1/2. -/
theorem detectBeat_spec_witness :
    detectBeat (some (List.replicate 10 (1 : ℚ))) (1 / 2) = true :=
  (detectBeat_spec.2.2.1 (List.replicate 10 1) (1 / 2) (by simp)).mpr
    (by norm_num [List.take_replicate, List.map_replicate, List.sum_replicate])

/-- C4: the beat decision is a pure function of the buffer and threshold
(identical inputs give identical results), and raising the threshold can
never turn a false into a true: if the decision holds at the larger
threshold it holds at the smaller one. -/
theorem detectBeat_det_antitone :
    (∀ (d1 d2 : Option (List ℚ)) (t1 t2 : ℚ),
      d1 = d2 → t1 = t2 → detectBeat d1 t1 = detectBeat d2 t2) ∧
    (∀ (d : Option (List ℚ)) (t1 t2 : ℚ),
      t1 ≤ t2 → detectBeat d t2 = true → detectBeat d t1 = true) := by
  constructor
  · intro d1 d2 t1 t2 h1 h2
    rw [h1, h2]
  · intro d t1 t2 h12 h2
    cases d with
    | none => simp [detectBeat] at h2
    | some l =>
      simp only [detectBeat] at h2 ⊢
      by_cases h0 : (l.take 10).length = 0
      · rw [if_pos h0] at h2
        exact absurd h2 (by simp)
      · rw [if_neg h0] at h2 ⊢
        rw [decide_eq_true_eq] at h2 ⊢
        exact lt_of_le_of_lt h12 h2

/-- C4 witness: with a 10-entry buffer of ones, the decision at threshold
2/10 transfers down to threshold 1/10. -/
theorem detectBeat_det_antitone_witness :
    detectBeat (some (List.replicate 10 (1 : ℚ))) (1 / 10) = true :=
  detectBeat_det_antitone.2 (some (List.replicate 10 1)) (1 / 10) (2 / 10)
    (by norm_num)
    (by norm_num [detectBeat, List.take_replicate, List.map_replicate, List.sum_replicate])

/-- C5: at height 200, sensitivity 50 and sample 1.0 the mirror-effect
pass produces y = -4900, far outside [margin, height - margin], while the
primary trace at the same inputs stays inside the band: the mirror pass
multiplies by the raw 0-100 sensitivity with no clamp. -/
theorem mirrorY_out_of_range :
    mirrorY 200 50 1 = -4900 ∧
    mirrorY 200 50 1 < waveformMargin ∧
    waveformMargin ≤ primaryY 200 50 1 ∧
    primaryY 200 50 1 ≤ 200 - waveformMargin := by
  refine ⟨?_, ?_, ?_, ?_⟩ <;>
    norm_num [mirrorY, primaryY, amplitude, maxAmplitude, sensitivityScale, waveformMargin]

/-- C7 counterexample: the freshly constructed service has an analyser but
no active source, and `getFrequencyData` returns a buffer there, not
null — the accessor never consults the source state. -/
theorem getFrequencyData_no_source_cex :
    freshService.currentSource = none ∧ getFrequencyData freshService ≠ none := by
  refine ⟨rfl, ?_⟩
  have hv : getFrequencyData freshService = some (List.replicate 1024 (-100)) := rfl
  rw [hv]
  exact Option.some_ne_none _

/-- C7 amended: `getFrequencyData` (resp. `getWaveformData`) returns null
exactly when the analyser is null or the corresponding read throws; the
active-source state plays no role, and a caught read error yields null
rather than an escaping exception. -/
theorem getFrequencyData_null_iff (s : AudioServiceState) :
    (getFrequencyData s = none ↔
      s.analyser = none ∨ ∃ a, s.analyser = some a ∧ a.readFft = ReadResult.err) ∧
    (getWaveformData s = none ↔
      s.analyser = none ∨ ∃ a, s.analyser = some a ∧ a.readWaveform = ReadResult.err) := by
  obtain ⟨an, src⟩ := s
  constructor
  · cases an with
    | none => simp [getFrequencyData]
    | some a =>
      cases h : a.readFft with
      | ok data => simp [getFrequencyData, h]
      | err => simp [getFrequencyData, h]
  · cases an with
    | none => simp [getWaveformData]
    | some a =>
      cases h : a.readWaveform with
      | ok data => simp [getWaveformData, h]
      | err => simp [getWaveformData, h]

/-- C8 counterexample: with the 6-color default scheme and driving value
1/2 the geometric mode picks index `min(floor(0.5 * 6), 5) = 3`, while the
claimed formula `floor(0.5 * (6 - 1))` gives 2. -/
theorem colorIndex_formula_cex :
    geometricColorIndex (1 / 2) 6 = 3 ∧
    ⌊(1 / 2 : ℚ) * ((6 : ℚ) - 1)⌋ = 2 ∧
    geometricColorIndex (1 / 2) 6 ≠ ⌊(1 / 2 : ℚ) * ((6 : ℚ) - 1)⌋ := by
  have h1 : ((1 : ℚ) / 2) * ((6 : ℕ) : ℚ) = 3 := by norm_num
  have h2 : ((1 : ℚ) / 2) * ((6 : ℚ) - 1) = 5 / 2 := by norm_num
  have h3 : ⌊((1 : ℚ) / 2) * ((6 : ℚ) - 1)⌋ = 2 := by
    rw [h2, Int.floor_eq_iff]
    norm_num
  have h4 : geometricColorIndex (1 / 2) 6 = 3 := by
    unfold geometricColorIndex
    rw [h1]
    norm_num
  exact ⟨h4, h3, by rw [h4, h3]; norm_num⟩

/-- C8 amended: the bar mode picks `floor((i / numBands) * colors.length)`
(the modulo applied at the access site is the identity there) and the
geometric/particle modes pick `min(floor(value * colors.length),
colors.length - 1)`; for a position index below the band count, or a
nonnegative driving value, the chosen index lies in
`[0, colors.length - 1]`. -/
theorem colorIndex_spec :
    (∀ i numBands colorsLen : ℕ, i < numBands → 1 ≤ colorsLen →
      barColorIndex i numBands colorsLen = ⌊((i : ℚ) / (numBands : ℚ)) * (colorsLen : ℚ)⌋ ∧
      0 ≤ barColorIndex i numBands colorsLen ∧
      barColorIndex i numBands colorsLen ≤ (colorsLen : ℤ) - 1) ∧
    (∀ (v : ℚ) (colorsLen : ℕ), 0 ≤ v → 1 ≤ colorsLen →
      0 ≤ geometricColorIndex v colorsLen ∧
      geometricColorIndex v colorsLen ≤ (colorsLen : ℤ) - 1) ∧
    (∀ (v : ℚ) (colorsLen : ℕ),
      particleColorIndex v colorsLen = geometricColorIndex v colorsLen) := by
  refine ⟨fun i numBands colorsLen hi hlen => ?_, fun v colorsLen hv hlen => ?_,
    fun v colorsLen => rfl⟩
  · have hN : (0 : ℚ) < (numBands : ℚ) := by
      exact_mod_cast lt_of_le_of_lt (Nat.zero_le i) hi
    have hc : (0 : ℚ) < (colorsLen : ℚ) := by exact_mod_cast hlen
    have hx0 : (0 : ℚ) ≤ ((i : ℚ) / (numBands : ℚ)) * (colorsLen : ℚ) := by positivity
    have hfrac : ((i : ℚ) / (numBands : ℚ)) < 1 := by
      rw [div_lt_one hN]
      exact_mod_cast hi
    have hxlt : ((i : ℚ) / (numBands : ℚ)) * (colorsLen : ℚ) < (colorsLen : ℚ) :=
      mul_lt_of_lt_one_left hc hfrac
    have hfl0 : 0 ≤ ⌊((i : ℚ) / (numBands : ℚ)) * (colorsLen : ℚ)⌋ :=
      Int.floor_nonneg.mpr hx0
    have hflt : ⌊((i : ℚ) / (numBands : ℚ)) * (colorsLen : ℚ)⌋ < (colorsLen : ℤ) := by
      rw [Int.floor_lt]
      push_cast
      exact hxlt
    have hmod : barColorIndex i numBands colorsLen =
        ⌊((i : ℚ) / (numBands : ℚ)) * (colorsLen : ℚ)⌋ := by
      unfold barColorIndex
      exact Int.emod_eq_of_lt hfl0 hflt
    refine ⟨hmod, ?_, ?_⟩
    · rw [hmod]; exact hfl0
    · rw [hmod]; omega
  · have hc : (1 : ℤ) ≤ (colorsLen : ℤ) := by exact_mod_cast hlen
    constructor
    · apply le_min
      · exact Int.floor_nonneg.mpr (by positivity)
      · omega
    · exact min_le_right _ _

/-- C8 amended witness: band 2 of 8 over 6 colors, and an overdriven
value 3/2 (possible because the magnitude is not clamped) in the geometric
mode. -/
theorem colorIndex_spec_witness :
    barColorIndex 2 8 6 = ⌊((2 : ℚ) / ((8 : ℕ) : ℚ)) * ((6 : ℕ) : ℚ)⌋ ∧
    0 ≤ geometricColorIndex (3 / 2) 6 ∧
    geometricColorIndex (3 / 2) 6 ≤ ((6 : ℕ) : ℤ) - 1 :=
  ⟨(colorIndex_spec.1 2 8 6 (by norm_num) (by norm_num)).1,
   (colorIndex_spec.2.1 (3 / 2) 6 (by norm_num) (by norm_num)).1,
   (colorIndex_spec.2.1 (3 / 2) 6 (by norm_num) (by norm_num)).2⟩

/-- C10: `seekTo` is a no-op without a player; with a player it seeks to
`max(0, min(seconds, duration))` where a missing duration counts as 0 (so
the target is exactly 0 then), and for a present nonnegative duration the
sought position always lies in `[0, duration]`. -/
theorem seekTo_spec :
    (∀ seconds : ℚ, seekTo none seconds = none) ∧
    (∀ (p : TonePlayer) (seconds : ℚ),
      seekTo (some p) seconds =
        some (max 0 (min seconds ((getDuration (some p)).getD 0)))) ∧
    (∀ (p : TonePlayer) (seconds d : ℚ), getDuration (some p) = some d → 0 ≤ d →
      ∃ pos, seekTo (some p) seconds = some pos ∧ 0 ≤ pos ∧ pos ≤ d) ∧
    (∀ (p : TonePlayer) (seconds : ℚ), getDuration (some p) = none →
      seekTo (some p) seconds = some 0) := by
  refine ⟨fun seconds => rfl, fun p seconds => rfl,
    fun p seconds d hd h0 => ?_, fun p seconds hd => ?_⟩
  · refine ⟨max 0 (min seconds d), by simp [seekTo, hd], le_max_left _ _, ?_⟩
    exact max_le h0 (min_le_right _ _)
  · have hmax : max 0 (min seconds 0) = (0 : ℚ) := by
      rcases le_total seconds 0 with h | h
      · rw [min_eq_left h, max_eq_left h]
      · rw [min_eq_right h, max_self]
    simp [seekTo, hd, hmax]

/-- C10 witness: seeking to 500 s in a 180 s track lands in [0, 180]. -/
theorem seekTo_spec_witness :
    ∃ pos, seekTo (some { buffer := some { duration := 180 } }) 500 = some pos ∧
      0 ≤ pos ∧ pos ≤ 180 :=
  seekTo_spec.2.2.1 { buffer := some { duration := 180 } } 500 180 rfl (by norm_num)

/-- C9: `updateSettings` is the functional spread
`setSettings(prev => ({ ...prev, ...updates }))`: every field named in
the partial update takes the update's value, every other field keeps the
previous value; `updateSettings` leaves presets and color schemes alone,
`savePreset` and `addColorScheme` never change the settings, and
`loadPreset` either leaves the settings unchanged or replaces them
atomically with a stored full snapshot. -/
theorem updateSettings_spec :
    (∀ (prev : VisualizationSettings) (updates : SettingsPatch),
      (∀ v, updates.wavelengthSize = some v → (mergeSettings prev updates).wavelengthSize = v) ∧
      (updates.wavelengthSize = none → (mergeSettings prev updates).wavelengthSize = prev.wavelengthSize) ∧
      (∀ v, updates.numFrequencyBands = some v → (mergeSettings prev updates).numFrequencyBands = v) ∧
      (updates.numFrequencyBands = none → (mergeSettings prev updates).numFrequencyBands = prev.numFrequencyBands) ∧
      (∀ v, updates.type = some v → (mergeSettings prev updates).type = v) ∧
      (updates.type = none → (mergeSettings prev updates).type = prev.type) ∧
      (∀ v, updates.visualizationType = some v → (mergeSettings prev updates).visualizationType = v) ∧
      (updates.visualizationType = none → (mergeSettings prev updates).visualizationType = prev.visualizationType) ∧
      (∀ v, updates.resolution = some v → (mergeSettings prev updates).resolution = v) ∧
      (updates.resolution = none → (mergeSettings prev updates).resolution = prev.resolution) ∧
      (∀ v, updates.width = some v → (mergeSettings prev updates).width = v) ∧
      (updates.width = none → (mergeSettings prev updates).width = prev.width) ∧
      (∀ v, updates.height = some v → (mergeSettings prev updates).height = v) ∧
      (updates.height = none → (mergeSettings prev updates).height = prev.height) ∧
      (∀ v, updates.orientation = some v → (mergeSettings prev updates).orientation = v) ∧
      (updates.orientation = none → (mergeSettings prev updates).orientation = prev.orientation) ∧
      (∀ v, updates.frameRate = some v → (mergeSettings prev updates).frameRate = v) ∧
      (updates.frameRate = none → (mergeSettings prev updates).frameRate = prev.frameRate) ∧
      (∀ v, updates.colorScheme = some v → (mergeSettings prev updates).colorScheme = v) ∧
      (updates.colorScheme = none → (mergeSettings prev updates).colorScheme = prev.colorScheme) ∧
      (∀ v, updates.sensitivity = some v → (mergeSettings prev updates).sensitivity = v) ∧
      (updates.sensitivity = none → (mergeSettings prev updates).sensitivity = prev.sensitivity) ∧
      (∀ v, updates.showControls = some v → (mergeSettings prev updates).showControls = v) ∧
      (updates.showControls = none → (mergeSettings prev updates).showControls = prev.showControls) ∧
      (∀ v, updates.isSimpleMode = some v → (mergeSettings prev updates).isSimpleMode = v) ∧
      (updates.isSimpleMode = none → (mergeSettings prev updates).isSimpleMode = prev.isSimpleMode) ∧
      (∀ v, updates.barWidth = some v → (mergeSettings prev updates).barWidth = v) ∧
      (updates.barWidth = none → (mergeSettings prev updates).barWidth = prev.barWidth) ∧
      (∀ v, updates.barSpacing = some v → (mergeSettings prev updates).barSpacing = v) ∧
      (updates.barSpacing = none → (mergeSettings prev updates).barSpacing = prev.barSpacing) ∧
      (∀ v, updates.amplification = some v → (mergeSettings prev updates).amplification = v) ∧
      (updates.amplification = none → (mergeSettings prev updates).amplification = prev.amplification) ∧
      (∀ v, updates.primaryColor = some v → (mergeSettings prev updates).primaryColor = v) ∧
      (updates.primaryColor = none → (mergeSettings prev updates).primaryColor = prev.primaryColor) ∧
      (∀ v, updates.secondaryColor = some v → (mergeSettings prev updates).secondaryColor = v) ∧
      (updates.secondaryColor = none → (mergeSettings prev updates).secondaryColor = prev.secondaryColor) ∧
      (∀ v, updates.useGradient = some v → (mergeSettings prev updates).useGradient = v) ∧
      (updates.useGradient = none → (mergeSettings prev updates).useGradient = prev.useGradient) ∧
      (∀ v, updates.lineWidth = some v → (mergeSettings prev updates).lineWidth = v) ∧
      (updates.lineWidth = none → (mergeSettings prev updates).lineWidth = prev.lineWidth) ∧
      (∀ v, updates.useGlow = some v → (mergeSettings prev updates).useGlow = v) ∧
      (updates.useGlow = none → (mergeSettings prev updates).useGlow = prev.useGlow) ∧
      (∀ v, updates.glowIntensity = some v → (mergeSettings prev updates).glowIntensity = v) ∧
      (updates.glowIntensity = none → (mergeSettings prev updates).glowIntensity = prev.glowIntensity) ∧
      (∀ v, updates.useRotation = some v → (mergeSettings prev updates).useRotation = v) ∧
      (updates.useRotation = none → (mergeSettings prev updates).useRotation = prev.useRotation) ∧
      (∀ v, updates.rotationSpeed = some v → (mergeSettings prev updates).rotationSpeed = v) ∧
      (updates.rotationSpeed = none → (mergeSettings prev updates).rotationSpeed = prev.rotationSpeed)) ∧
    (∀ (st : ProviderState) (updates : SettingsPatch),
      (updateSettings st updates).settings = mergeSettings st.settings updates ∧
      (updateSettings st updates).presets = st.presets ∧
      (updateSettings st updates).colorSchemes = st.colorSchemes) ∧
    (∀ (st : ProviderState) (name now : String),
      (savePreset st name now).settings = st.settings) ∧
    (∀ (st : ProviderState) (name : String) (colors : List String) (now : String),
      (addColorScheme st name colors now).settings = st.settings) ∧
    (∀ (st : ProviderState) (presetId : String),
      (loadPreset st presetId).settings = st.settings ∨
      ∃ p, p ∈ st.presets ∧ (loadPreset st presetId).settings = p.settings) := by
  refine ⟨fun prev updates => ?_, fun st updates => ⟨rfl, rfl, rfl⟩,
    fun st name now => rfl, fun st name colors now => rfl, fun st presetId => ?_⟩
  · repeat' apply And.intro
    all_goals (intros; simp_all [mergeSettings])
  · unfold loadPreset
    cases h : st.presets.find? (fun p => p.id == presetId) with
    | none => exact Or.inl rfl
    | some p => exact Or.inr ⟨p, List.mem_of_find?_eq_some h, rfl⟩

/-- C9 witness: patching only the wavelength size of the default settings
updates that field and keeps an unnamed field unchanged. -/
theorem updateSettings_spec_witness :
    (mergeSettings defaultSettings { wavelengthSize := some 512 }).wavelengthSize = 512 ∧
    (mergeSettings defaultSettings { wavelengthSize := some 512 }).numFrequencyBands =
      defaultSettings.numFrequencyBands :=
  ⟨(updateSettings_spec.1 defaultSettings _).1 512 rfl,
   (updateSettings_spec.1 defaultSettings _).2.2.2.1 rfl⟩

/-- C6 counterexample: volume 1/10000 is a valid volume above 0, yet its
gain 20*log10(1/10000) = -80 dB lies strictly below the -70 dB floor
assigned to volume 0, so the gain is not monotone over all of [0,1]. -/
theorem setVolumeDb_not_monotone_cex :
    (0 : ℝ) < 1 / 10000 ∧ (1 / 10000 : ℝ) ≤ 1 ∧
    setVolumeDb 0 = -70 ∧ setVolumeDb (1 / 10000) = -80 ∧
    setVolumeDb (1 / 10000) < setVolumeDb 0 := by
  have hc0 : clampVolume 0 = 0 := by
    unfold clampVolume
    norm_num
  have hcs : clampVolume (1 / 10000) = 1 / 10000 := by
    unfold clampVolume
    norm_num
  have hv0 : setVolumeDb 0 = -70 := by
    unfold setVolumeDb
    rw [hc0]
    norm_num
  have hpow : (10 : ℝ) ^ (-4 : ℝ) = 1 / 10000 := by
    rw [Real.rpow_neg (by norm_num : (0 : ℝ) ≤ 10)]
    rw [show ((4 : ℝ)) = ((4 : ℕ) : ℝ) from by norm_num, Real.rpow_natCast]
    norm_num
  have hlogb : Real.logb 10 (1 / 10000) = -4 := by
    rw [← hpow, Real.logb_rpow (by norm_num) (by norm_num)]
  have hv : setVolumeDb (1 / 10000) = -80 := by
    unfold setVolumeDb
    rw [hcs, if_pos (by norm_num : (0 : ℝ) < 1 / 10000), hlogb]
    norm_num
  refine ⟨by norm_num, by norm_num, hv0, hv, by rw [hv0, hv]; norm_num⟩

/-- C6 amended: the volume is clamped to [0,1] (the gain depends only on
the clamped value), volume 0 maps to the finite near-silent floor -70 dB,
volume 1 maps to unity gain 0 dB, and the gain is monotone on the
strictly positive volumes; monotonicity can only fail across the floor at
volume 0. -/
theorem setVolumeDb_spec :
    setVolumeDb 0 = -70 ∧
    setVolumeDb 1 = 0 ∧
    (∀ v : ℝ, setVolumeDb v = setVolumeDb (clampVolume v)) ∧
    (∀ v1 v2 : ℝ, 0 < v1 → v1 ≤ v2 → setVolumeDb v1 ≤ setVolumeDb v2) := by
  have hidem : ∀ v : ℝ, clampVolume (clampVolume v) = clampVolume v := by
    intro v
    unfold clampVolume
    rcases le_total (min 1 v) 0 with h | h
    · rw [max_eq_left h]
      simp
    · rw [max_eq_right h, ← min_assoc, min_self, max_eq_right h]
  refine ⟨?_, ?_, fun v => ?_, fun v1 v2 h1 h12 => ?_⟩
  · unfold setVolumeDb clampVolume
    norm_num
  · have hc1 : clampVolume 1 = 1 := by
      unfold clampVolume
      norm_num
    unfold setVolumeDb
    rw [hc1, if_pos (by norm_num : (0 : ℝ) < 1), Real.logb_one]
    norm_num
  · unfold setVolumeDb
    rw [hidem v]
  · have hc1pos : 0 < clampVolume v1 :=
      lt_of_lt_of_le (lt_min one_pos h1) (le_max_right 0 (min 1 v1))
    have hcle : clampVolume v1 ≤ clampVolume v2 :=
      max_le_max (le_refl 0) (min_le_min (le_refl 1) h12)
    have hc2pos : 0 < clampVolume v2 := lt_of_lt_of_le hc1pos hcle
    unfold setVolumeDb
    rw [if_pos hc1pos, if_pos hc2pos]
    have hlb := Real.logb_le_logb_of_le (by norm_num : (1 : ℝ) < 10) hc1pos hcle
    linarith

/-- C6 amended witness: positive volumes 1/2 and 1 are ordered in gain. -/
theorem setVolumeDb_spec_witness :
    (0 : ℝ) < 1 / 2 ∧ (1 / 2 : ℝ) ≤ 1 ∧ setVolumeDb (1 / 2) ≤ setVolumeDb 1 :=
  ⟨by norm_num, by norm_num, setVolumeDb_spec.2.2.2 (1 / 2) 1 (by norm_num) (by norm_num)⟩

/-- C1: for every band count in [4,12] and non-empty FFT buffer, the
bar-mode banding produces exactly `numBands` bins, the center frequencies
are strictly increasing in the band index, and every clamped bin index
lies in `[0, fftSize - 1]`. -/
theorem freqBins_spec (numBands fftSize : ℕ)
    (h4 : 4 ≤ numBands) (_h12 : numBands ≤ 12) (hL : 1 ≤ fftSize) :
    (freqBins numBands fftSize).length = numBands ∧
    (∀ i j : ℕ, i < j → j < numBands →
      centerFreq numBands i < centerFreq numBands j) ∧
    (∀ i : ℕ, i < numBands →
      0 ≤ binIndex numBands fftSize i ∧
      binIndex numBands fftSize i ≤ (fftSize : ℤ) - 1) := by
  have hN : (0 : ℝ) < (numBands : ℝ) := by
    have h0 : 0 < numBands := lt_of_lt_of_le (by norm_num) h4
    exact_mod_cast h0
  have hlog : logMin < logMax := by
    unfold logMin logMax
    exact Real.logb_lt_logb (by norm_num) (by norm_num) (by norm_num)
  refine ⟨by simp [freqBins], fun i j hij hj => ?_, fun i hi => ?_⟩
  · unfold centerFreq
    rw [Real.rpow_lt_rpow_left_iff (by norm_num : (1 : ℝ) < 10)]
    have hfrac : (i : ℝ) / (numBands : ℝ) < (j : ℝ) / (numBands : ℝ) := by
      rw [div_lt_div_iff_of_pos_right hN]
      exact_mod_cast hij
    have hmul := mul_lt_mul_of_pos_right hfrac (sub_pos.mpr hlog)
    linarith
  · constructor
    · unfold binIndex
      apply le_min
      · apply Int.floor_nonneg.mpr
        have hcf : 0 < centerFreq numBands i := Real.rpow_pos_of_pos (by norm_num) _
        apply mul_nonneg (div_nonneg hcf.le (by norm_num))
        positivity
      · have hL1 : (1 : ℤ) ≤ (fftSize : ℤ) := by exact_mod_cast hL
        omega
    · exact min_le_right _ _

/-- C1 witness: the default configuration, 8 bands over a 1024-bin
buffer. -/
theorem freqBins_spec_witness :
    (4 : ℕ) ≤ 8 ∧ (8 : ℕ) ≤ 12 ∧ (1 : ℕ) ≤ 1024 ∧ (freqBins 8 1024).length = 8 :=
  ⟨by norm_num, by norm_num, by norm_num,
   (freqBins_spec 8 1024 (by norm_num) (by norm_num) (by norm_num)).1⟩

end AudioViz
